import Mathlib

/-!
Shallow embedding of `src/h1st_contrib/pmfp/models/oracle/__init__.py`
("Fault Prediction Oracle").

The module under verification is composition glue: it holds a teacher model,
a student model and an ensemble, all implemented outside this file (in
`.teacher.base`, `.student.timeseries_dl`, `.ensemble.basic` and the external
`h1st` framework), and delegates to them.  External models are therefore
embedded as records of their interface functions, abstracted over the
dataframe type `DF`, the batch data-feeder type `Feeder` and the row-index
type `ι`.  Methods that could in principle mutate the receiving object are
embedded as functions returning the result together with the post-call
object state, so that absence of mutation is a provable statement.
-/

namespace PMFP

/-- A pandas `Series` as used in this module: an index column, a values
column (aligned positionally with the index) and a name. -/
structure PSeries (ι α : Type) where
  index : List ι
  values : List α
  name : String

/-- Interface of the external teacher model
(`h1st_contrib.pmfp.models.oracle.teacher.base.BaseFaultPredTeacher`):
the attributes and methods this module reads or calls. -/
structure BaseFaultPredTeacher (DF Feeder ι : Type) where
  general_type : String
  unique_type_group : String
  version : String
  predict : DF → Bool
  batch_predict : Feeder → PSeries ι Bool

/-- Interface of the external student model
(`.student.timeseries_dl.TimeSeriesDLFaultPredStudent`): `predict` and
`batch_predict` take the `return_binary` keyword as a second argument. -/
structure TimeSeriesDLFaultPredStudent (DF Feeder ι : Type) where
  version : String
  predict : DF → Bool → Bool
  batch_predict : Feeder → Bool → PSeries ι Bool

/-- Interface of the external `h1st.model.oracle.ensemble.Ensemble` contract:
`predict` combines one teacher prediction and one student prediction;
`batch_predict` combines the two batch-prediction series.  `className`
records the Python class of the ensemble object. -/
structure Ensemble (ι : Type) where
  className : String
  predict : Bool → Bool → Bool
  batch_predict : PSeries ι Bool → PSeries ι Bool → PSeries ι Bool

/-- Modelled from the spec: `UnanimousFaultPredEnsemble` (from
`.ensemble.basic`, whose source is not under `src/`) is "a policy combining
teacher and student predictions into a final verdict"; its vote is modelled
as the unanimous (conjunctive) vote its name states.  The claims settled in
this file depend only on its identity as the constructor's default ensemble,
never on these bodies. -/
def UnanimousFaultPredEnsemble (ι : Type) : Ensemble ι where
  className := "UnanimousFaultPredEnsemble"
  predict := fun teacher_pred student_pred => teacher_pred && student_pred
  batch_predict := fun teacher_preds student_preds =>
    { index := teacher_preds.index
      values := List.zipWith (fun a b => a && b) teacher_preds.values
        student_preds.values
      name := teacher_preds.name }

/-- The composite oracle object: the three base-class attributes set by
`super().__init__` plus the three attributes set by `__init__` itself. -/
structure FaultPredOracle (DF Feeder ι : Type) where
  general_type : String
  unique_type_group : String
  version : String
  teacher : BaseFaultPredTeacher DF Feeder ι
  student : TimeSeriesDLFaultPredStudent DF Feeder ι
  ensemble : Ensemble ι

/-- `FaultPredOracle.__init__`: `super().__init__(general_type=
teacher.general_type, unique_type_group=teacher.unique_type_group,
version=student.version)`, then stores teacher, student and ensemble; the
`ensemble` parameter defaults to `UnanimousFaultPredEnsemble()`. -/
def FaultPredOracle.init {DF Feeder ι : Type}
    (teacher : BaseFaultPredTeacher DF Feeder ι)
    (student : TimeSeriesDLFaultPredStudent DF Feeder ι)
    (ensemble : Ensemble ι := UnanimousFaultPredEnsemble ι) :
    FaultPredOracle DF Feeder ι where
  general_type := teacher.general_type
  unique_type_group := teacher.unique_type_group
  version := student.version
  teacher := teacher
  student := student
  ensemble := ensemble

/-- If `p` is a prefix of the second list, returns the remainder after `p`;
otherwise `none`.  Helper for the embedding of Python `str.split`. -/
def dropPrefixQ : List Char → List Char → Option (List Char)
  | [], l => some l
  | _ :: _, [] => none
  | p :: ps, c :: cs => if p = c then dropPrefixQ ps cs else none

/-- Worker for `pySplit`, structurally recursive on a fuel argument.  At each
position: if the (nonempty) separator matches, cut here and continue after
the separator; otherwise move one character into the accumulator.  With
`fuel ≥` input length and a nonempty separator the fuel-exhaustion case is
never reached. -/
def pySplitAux (sep : List Char) : Nat → List Char → List Char → List (List Char)
  | _, [], acc => [acc.reverse]
  | 0, l, acc => [acc.reverse ++ l]
  | fuel + 1, c :: rest, acc =>
    match dropPrefixQ sep (c :: rest) with
    | some rem => acc.reverse :: pySplitAux sep fuel rem []
    | none => pySplitAux sep fuel rest (c :: acc)

/-- Embedding of Python `s.split(sep)` for a nonempty separator `sep`:
left-to-right, non-overlapping occurrences of `sep` cut `s` into parts
(`"T--1---S".split("---") = ["T--1", "S"]`, `"".split("---") = [""]`). -/
def pySplit (s : String) (sep : String) : List String :=
  (pySplitAux sep.data s.data.length s.data []).map String.mk

/-- Embedding of Python tuple unpacking `a, b = l`: succeeds exactly when
`l` has exactly two elements, otherwise raises `ValueError`. -/
def unpack2 {α : Type} : List α → Except String (α × α)
  | [a, b] => Except.ok (a, b)
  | l =>
    Except.error (if l.length > 2
      then "ValueError: too many values to unpack"
      else "ValueError: not enough values to unpack")

/-- Decides whether an `Except` value is an error. -/
def exceptIsError {ε α : Type} : Except ε α → Bool
  | Except.error _ => true
  | Except.ok _ => false

/-- The `ai.models` registry imported inside `FaultPredOracle.load`:
`getattr` is Python attribute lookup (`none` models `AttributeError`),
returning a teacher class, itself modelled by its `load` classmethod. -/
structure AIModelsRegistry (DF Feeder ι : Type) where
  getattr : String → Option (String → Except String (BaseFaultPredTeacher DF Feeder ι))

/-- Class-level interface of the external `TimeSeriesDLFaultPredStudent`:
its `load` and `list_versions` classmethods. -/
structure TimeSeriesDLFaultPredStudentClass (DF Feeder ι : Type) where
  load : String → Except String (TimeSeriesDLFaultPredStudent DF Feeder ι)
  list_versions : List String

/-- `FaultPredOracle.load(version)`: split `version` on `---` into
`teacher_name, _student_name`; split `teacher_name` on `--` into
`teacher_class_name, teacher_version`; resolve the teacher class via
`getattr(ai.models, teacher_class_name)`; load the teacher at
`teacher_version`; load the student at the full `version`; return
`cls(teacher=teacher, student=student)`.  Each failing step short-circuits,
embedding the unhandled propagation of Python exceptions. -/
def FaultPredOracle.load {DF Feeder ι : Type}
    (aiModels : AIModelsRegistry DF Feeder ι)
    (studentClass : TimeSeriesDLFaultPredStudentClass DF Feeder ι)
    (version : String) : Except String (FaultPredOracle DF Feeder ι) :=
  match unpack2 (pySplit version "---") with
  | Except.error e => Except.error e
  | Except.ok (teacher_name, _student_name) =>
    match unpack2 (pySplit teacher_name "--") with
    | Except.error e => Except.error e
    | Except.ok (teacher_class_name, _teacher_version) =>
      match aiModels.getattr teacher_class_name with
      | none => Except.error
          ("AttributeError: module ai.models has no attribute " ++ teacher_class_name)
      | some teacher_class =>
        match teacher_class _teacher_version with
        | Except.error e => Except.error e
        | Except.ok teacher =>
          match studentClass.load version with
          | Except.error e => Except.error e
          | Except.ok student => Except.ok (FaultPredOracle.init teacher student)

/-- `FaultPredOracle.list_versions()`: returns
`TimeSeriesDLFaultPredStudent.list_versions()`. -/
def FaultPredOracle.list_versions {DF Feeder ι : Type}
    (studentClass : TimeSeriesDLFaultPredStudentClass DF Feeder ι) : List String :=
  studentClass.list_versions

/-- `FaultPredOracle.predict(df)`: `teacher_pred := teacher.predict(df)`,
`student_pred := student.predict(df, return_binary=True)`, then the tuple
`(teacher_pred, student_pred, ensemble.predict(teacher_pred, student_pred))`.
The second component of the result is the post-call oracle state: the method
body assigns to no attribute of `self`. -/
def FaultPredOracle.predict {DF Feeder ι : Type}
    (self : FaultPredOracle DF Feeder ι)
    (df_for_1_equipment_unit_for_1_day : DF) :
    (Bool × Bool × Bool) × FaultPredOracle DF Feeder ι :=
  let teacher_pred := self.teacher.predict df_for_1_equipment_unit_for_1_day
  let student_pred := self.student.predict df_for_1_equipment_unit_for_1_day true
  ((teacher_pred, student_pred,
    self.ensemble.predict teacher_pred student_pred), self)

/-- Python `zip` of three sequences: pairs elements positionally, truncating
to the shortest. -/
def zip3 {α β γ : Type} : List α → List β → List γ → List (α × β × γ)
  | a :: l1, b :: l2, c :: l3 => (a, b, c) :: zip3 l1 l2 l3
  | _, _, _ => []

/-- `FaultPredOracle.batch_predict(s3_parquet_df)`: builds
`Series(data=zip(teacher_preds, student_preds, ensemble_preds),
index=ensemble_preds.index, name='FAULT')` where
`teacher_preds := teacher.batch_predict(feeder)`,
`student_preds := student.batch_predict(feeder, return_binary=True)`,
`ensemble_preds := ensemble.batch_predict(teacher_preds, student_preds)`.
The second component of the result is the post-call oracle state. -/
def FaultPredOracle.batch_predict {DF Feeder ι : Type}
    (self : FaultPredOracle DF Feeder ι) (s3_parquet_df : Feeder) :
    PSeries ι (Bool × Bool × Bool) × FaultPredOracle DF Feeder ι :=
  let teacher_preds := self.teacher.batch_predict s3_parquet_df
  let student_preds := self.student.batch_predict s3_parquet_df true
  let ensemble_preds := self.ensemble.batch_predict teacher_preds student_preds
  ({ index := ensemble_preds.index
     values := zip3 teacher_preds.values student_preds.values
       ensemble_preds.values
     name := "FAULT" }, self)

/-- The configuration stored by `FaultPredOracleModeler.__init__`. -/
structure FaultPredOracleModeler (DF Feeder ι : Type) where
  teacher : BaseFaultPredTeacher DF Feeder ι
  student_input_cat_cols : List String
  student_input_num_cols : List String
  student_input_subsampling_factor : Int
  student_train_date_range : String × String
  student_tuning_date_range : String × String

/-- The external calls `FaultPredOracleModeler.build_model` makes, recorded
as trace events: constructing-and-building a
`TimeSeriesDLFaultPredStudentModeler` with the given arguments, and tuning a
given student's decision threshold over a date range. -/
inductive StudentModelerCall (DF Feeder ι : Type) where
  | buildStudent (teacher : BaseFaultPredTeacher DF Feeder ι)
      (input_cat_cols input_num_cols : List String)
      (input_subsampling_factor : Int)
      (date_range : String × String)
  | tuneDecisionThreshold (student : TimeSeriesDLFaultPredStudent DF Feeder ι)
      (tuning_date_range : String × String)

/-- Behaviour of the external calls: `TimeSeriesDLFaultPredStudentModeler(
teacher, input_cat_cols, input_num_cols, input_subsampling_factor,
date_range).build_model()` and
`student.tune_decision_threshold(tuning_date_range)` (the latter returning
the student's post-call state). -/
structure StudentModelerEnv (DF Feeder ι : Type) where
  build_model : BaseFaultPredTeacher DF Feeder ι → List String → List String →
    Int → (String × String) → TimeSeriesDLFaultPredStudent DF Feeder ι
  tune_decision_threshold : TimeSeriesDLFaultPredStudent DF Feeder ι →
    (String × String) → TimeSeriesDLFaultPredStudent DF Feeder ι

/-- `FaultPredOracleModeler.build_model()`: trains the student via
`TimeSeriesDLFaultPredStudentModeler(...).build_model()`, then calls
`student.tune_decision_threshold(tuning_date_range=...)`, and falls off the
end of the function body: the Python function returns `None` (embedded as
`none`) despite its `-> FaultPredOracle` annotation.  The second component is
the trace of external calls, in source order. -/
def FaultPredOracleModeler.build_model {DF Feeder ι : Type}
    (env : StudentModelerEnv DF Feeder ι)
    (self : FaultPredOracleModeler DF Feeder ι) :
    Option (FaultPredOracle DF Feeder ι) × List (StudentModelerCall DF Feeder ι) :=
  let student := env.build_model self.teacher self.student_input_cat_cols
    self.student_input_num_cols self.student_input_subsampling_factor
    self.student_train_date_range
  let _tuned := env.tune_decision_threshold student self.student_tuning_date_range
  (none,
   [StudentModelerCall.buildStudent self.teacher self.student_input_cat_cols
      self.student_input_num_cols self.student_input_subsampling_factor
      self.student_train_date_range,
    StudentModelerCall.tuneDecisionThreshold student
      self.student_tuning_date_range])

/-! Concrete fixtures, used to instantiate the hypotheses of the theorems
below on closed inputs. -/

/-- A concrete teacher over trivial dataframe and feeder types. -/
def witTeacher : BaseFaultPredTeacher Unit Unit Nat where
  general_type := "refrig"
  unique_type_group := "co2_mid_1_compressor"
  version := "1"
  predict := fun _ => true
  batch_predict := fun _ => { index := [7, 8], values := [true, false], name := "t" }

/-- A concrete student whose version is a well-formed oracle version string. -/
def witStudent : TimeSeriesDLFaultPredStudent Unit Unit Nat where
  version := "FPTeacher--1---FPStudent--2"
  predict := fun _ return_binary => return_binary
  batch_predict := fun _ _ => { index := [7, 8], values := [true, true], name := "s" }

/-- The load classmethod of the concrete teacher class registered below. -/
def witTeacherLoad : String → Except String (BaseFaultPredTeacher Unit Unit Nat) :=
  fun v => if v = "1" then Except.ok witTeacher
           else Except.error "FileNotFoundError"

/-- A concrete `ai.models` registry holding one teacher class, `FPTeacher`. -/
def witRegistry : AIModelsRegistry Unit Unit Nat where
  getattr := fun attr_name =>
    if attr_name = "FPTeacher" then some witTeacherLoad else none

/-- A concrete student class that loads `witStudent` at its version. -/
def witStudentClass : TimeSeriesDLFaultPredStudentClass Unit Unit Nat where
  load := fun v =>
    if v = "FPTeacher--1---FPStudent--2" then Except.ok witStudent
    else Except.error "FileNotFoundError"
  list_versions := ["FPTeacher--1---FPStudent--2"]

/-- A concrete oracle combining the fixture teacher and student with the
default ensemble. -/
def witOracle : FaultPredOracle Unit Unit Nat :=
  FaultPredOracle.init witTeacher witStudent

/-! Theorems -/

/-- Helper: `unpack2` succeeds exactly on two-element lists, returning them. -/
theorem unpack2_eq_ok {α : Type} {l : List α} {a b : α}
    (h : unpack2 l = Except.ok (a, b)) : l = [a, b] := by
  match l with
  | [] => simp [unpack2] at h
  | [x] => simp [unpack2] at h
  | [x, y] =>
    simp [unpack2] at h
    simp [h.1, h.2]
  | x :: y :: z :: rest => simp [unpack2] at h

/-- Helper: on a list whose length is not 2, `unpack2` raises. -/
theorem unpack2_of_length_ne_two {α : Type} {l : List α} (h : l.length ≠ 2) :
    ∃ e, unpack2 l = Except.error e := by
  match l with
  | [] => exact ⟨_, rfl⟩
  | [x] => exact ⟨_, rfl⟩
  | [x, y] => simp at h
  | x :: y :: z :: rest => exact ⟨_, rfl⟩

/-- Helper: inversion of a successful `FaultPredOracle.load`: the version
string split into exactly two parts on each separator, the teacher class
resolved and loaded, the student loaded at the full version string, and the
result is the `init` of that teacher and student. -/
theorem FaultPredOracle.load_ok_elim {DF Feeder ι : Type}
    {aiModels : AIModelsRegistry DF Feeder ι}
    {studentClass : TimeSeriesDLFaultPredStudentClass DF Feeder ι}
    {version : String} {o : FaultPredOracle DF Feeder ι}
    (h : FaultPredOracle.load aiModels studentClass version = Except.ok o) :
    ∃ teacher_name sname teacher_class_name teacher_version cls teacher student,
      pySplit version "---" = [teacher_name, sname] ∧
      pySplit teacher_name "--" = [teacher_class_name, teacher_version] ∧
      aiModels.getattr teacher_class_name = some cls ∧
      cls teacher_version = Except.ok teacher ∧
      studentClass.load version = Except.ok student ∧
      o = FaultPredOracle.init teacher student := by
  unfold FaultPredOracle.load at h
  split at h
  case _ => exact absurd h (by simp)
  case _ teacher_name sname h1 =>
  split at h
  case _ => exact absurd h (by simp)
  case _ teacher_class_name teacher_version h2 =>
  split at h
  case _ => exact absurd h (by simp)
  case _ cls h3 =>
  split at h
  case _ => exact absurd h (by simp)
  case _ teacher h4 =>
  split at h
  case _ => exact absurd h (by simp)
  case _ student h5 =>
  exact ⟨teacher_name, sname, teacher_class_name, teacher_version, cls,
    teacher, student, unpack2_eq_ok h1, unpack2_eq_ok h2, h3, h4, h5,
    (Except.ok.injEq _ _ ▸ h).symm⟩

/-- C2: when the version string splits on `---` into exactly two parts and
the teacher-name part splits on `--` into exactly two parts,
`FaultPredOracle.load` resolves the teacher class by attribute lookup in
`ai.models`, loads the teacher from that class at the teacher version, loads
the student via `TimeSeriesDLFaultPredStudent.load` at the FULL version
string (not the student-name part), and returns the oracle built from that
teacher and student. -/
theorem FaultPredOracle.load_splits_resolves_and_composes
    {DF Feeder ι : Type} (aiModels : AIModelsRegistry DF Feeder ι)
    (studentClass : TimeSeriesDLFaultPredStudentClass DF Feeder ι)
    (version teacher_name sname teacher_class_name teacher_version : String)
    (cls : String → Except String (BaseFaultPredTeacher DF Feeder ι))
    (teacher : BaseFaultPredTeacher DF Feeder ι)
    (student : TimeSeriesDLFaultPredStudent DF Feeder ι)
    (h1 : pySplit version "---" = [teacher_name, sname])
    (h2 : pySplit teacher_name "--" = [teacher_class_name, teacher_version])
    (h3 : aiModels.getattr teacher_class_name = some cls)
    (h4 : cls teacher_version = Except.ok teacher)
    (h5 : studentClass.load version = Except.ok student) :
    FaultPredOracle.load aiModels studentClass version =
      Except.ok (FaultPredOracle.init teacher student) := by
  unfold FaultPredOracle.load
  rw [h1]
  simp [unpack2, h2, h3, h4, h5]

/-- C2 witness: loading a concrete well-formed version string from the
concrete registry yields the oracle built from the fixture teacher and
student. -/
theorem FaultPredOracle.load_splits_resolves_and_composes_witness :
    FaultPredOracle.load witRegistry witStudentClass
        "FPTeacher--1---FPStudent--2" =
      Except.ok (FaultPredOracle.init witTeacher witStudent) :=
  FaultPredOracle.load_splits_resolves_and_composes witRegistry witStudentClass
    "FPTeacher--1---FPStudent--2" "FPTeacher--1" "FPStudent--2" "FPTeacher" "1"
    witTeacherLoad witTeacher witStudent (by decide) (by decide) rfl rfl rfl

/-- C1: for every input dataframe, `FaultPredOracle.predict` returns the
3-tuple of booleans `(t, s, e)` where `t` is the teacher's prediction on the
dataframe, `s` is the student's binary prediction on it, and `e` is the
ensemble's prediction on those two earlier results, with the teacher called
first, then the student, then the ensemble. -/
theorem FaultPredOracle.predict_is_teacher_student_ensemble_triple
    {DF Feeder ι : Type} (o : FaultPredOracle DF Feeder ι) (df : DF) :
    (o.predict df).1 =
      (o.teacher.predict df,
       o.student.predict df true,
       o.ensemble.predict (o.teacher.predict df) (o.student.predict df true)) :=
  rfl

/-- C3: `FaultPredOracleModeler.build_model` first builds a student by
invoking the student modeler's `build_model` with the stored teacher,
categorical columns, numerical columns, subsampling factor and training date
range, and then tunes that very student's decision threshold with the stored
tuning date range: its external-call trace is exactly those two calls in that
order. -/
theorem FaultPredOracleModeler.build_model_builds_student_then_tunes
    {DF Feeder ι : Type} (env : StudentModelerEnv DF Feeder ι)
    (m : FaultPredOracleModeler DF Feeder ι) :
    (FaultPredOracleModeler.build_model env m).2 =
      [StudentModelerCall.buildStudent m.teacher m.student_input_cat_cols
         m.student_input_num_cols m.student_input_subsampling_factor
         m.student_train_date_range,
       StudentModelerCall.tuneDecisionThreshold
         (env.build_model m.teacher m.student_input_cat_cols
            m.student_input_num_cols m.student_input_subsampling_factor
            m.student_train_date_range)
         m.student_tuning_date_range] :=
  rfl

/-- C4: `FaultPredOracleModeler.build_model` returns `None` for every modeler
and every behaviour of the external student-modeler calls: no
`FaultPredOracle` is constructed or returned, and the trained-and-tuned
student is discarded. -/
theorem FaultPredOracleModeler.build_model_returns_none
    {DF Feeder ι : Type} (env : StudentModelerEnv DF Feeder ι)
    (m : FaultPredOracleModeler DF Feeder ι) :
    (FaultPredOracleModeler.build_model env m).1 = none :=
  rfl

/-- C7: `FaultPredOracle.list_versions` returns exactly the list returned by
`TimeSeriesDLFaultPredStudent.list_versions`, with no filtering, reordering
or additions. -/
theorem FaultPredOracle.list_versions_delegates_to_student
    {DF Feeder ι : Type}
    (studentClass : TimeSeriesDLFaultPredStudentClass DF Feeder ι) :
    FaultPredOracle.list_versions studentClass = studentClass.list_versions :=
  rfl

/-- C10: `predict` and `batch_predict` leave the oracle's own state
unchanged: the post-call oracle state returned by either method equals the
pre-call oracle, so teacher, student, ensemble, version, general_type and
unique_type_group are all identical before and after either call. -/
theorem FaultPredOracle.predict_and_batch_predict_preserve_state
    {DF Feeder ι : Type} (o : FaultPredOracle DF Feeder ι)
    (df : DF) (fd : Feeder) :
    (o.predict df).2 = o ∧ (o.batch_predict fd).2 = o :=
  ⟨rfl, rfl⟩

/-- C6: failures inside `FaultPredOracle.load` propagate unhandled to the
caller: a version string that does not split on `---` into exactly two
parts raises; one whose teacher-name part does not split on `--` into
exactly two parts raises; a teacher class name absent from `ai.models`
raises; and an error from the underlying teacher load or student load is
returned to the caller verbatim — no step catches it. -/
theorem FaultPredOracle.load_propagates_errors_unhandled
    {DF Feeder ι : Type} (aiModels : AIModelsRegistry DF Feeder ι)
    (studentClass : TimeSeriesDLFaultPredStudentClass DF Feeder ι) :
    (∀ version : String, (pySplit version "---").length ≠ 2 →
      exceptIsError (FaultPredOracle.load aiModels studentClass version) = true) ∧
    (∀ version tn sn : String, pySplit version "---" = [tn, sn] →
      (pySplit tn "--").length ≠ 2 →
      exceptIsError (FaultPredOracle.load aiModels studentClass version) = true) ∧
    (∀ version tn sn tcn tv : String, pySplit version "---" = [tn, sn] →
      pySplit tn "--" = [tcn, tv] → aiModels.getattr tcn = none →
      exceptIsError (FaultPredOracle.load aiModels studentClass version) = true) ∧
    (∀ (version tn sn tcn tv : String)
       (cls : String → Except String (BaseFaultPredTeacher DF Feeder ι))
       (msg : String), pySplit version "---" = [tn, sn] →
      pySplit tn "--" = [tcn, tv] → aiModels.getattr tcn = some cls →
      cls tv = Except.error msg →
      FaultPredOracle.load aiModels studentClass version = Except.error msg) ∧
    (∀ (version tn sn tcn tv : String)
       (cls : String → Except String (BaseFaultPredTeacher DF Feeder ι))
       (teacher : BaseFaultPredTeacher DF Feeder ι) (msg : String),
      pySplit version "---" = [tn, sn] →
      pySplit tn "--" = [tcn, tv] → aiModels.getattr tcn = some cls →
      cls tv = Except.ok teacher → studentClass.load version = Except.error msg →
      FaultPredOracle.load aiModels studentClass version = Except.error msg) := by
  refine ⟨?_, ?_, ?_, ?_, ?_⟩
  · intro version h
    obtain ⟨e, he⟩ := unpack2_of_length_ne_two h
    unfold FaultPredOracle.load
    rw [he]
    rfl
  · intro version tn sn h1 h2
    obtain ⟨e, he⟩ := unpack2_of_length_ne_two h2
    unfold FaultPredOracle.load
    rw [h1]
    simp only [show unpack2 [tn, sn] = Except.ok (tn, sn) from rfl]
    rw [he]
    rfl
  · intro version tn sn tcn tv h1 h2 h3
    unfold FaultPredOracle.load
    rw [h1]
    simp only [show unpack2 [tn, sn] = Except.ok (tn, sn) from rfl]
    rw [h2]
    simp only [show unpack2 [tcn, tv] = Except.ok (tcn, tv) from rfl]
    rw [h3]
    rfl
  · intro version tn sn tcn tv cls msg h1 h2 h3 h4
    unfold FaultPredOracle.load
    rw [h1]
    simp only [show unpack2 [tn, sn] = Except.ok (tn, sn) from rfl]
    rw [h2]
    simp only [show unpack2 [tcn, tv] = Except.ok (tcn, tv) from rfl]
    rw [h3]
    simp only [h4]
  · intro version tn sn tcn tv cls teacher msg h1 h2 h3 h4 h5
    unfold FaultPredOracle.load
    rw [h1]
    simp only [show unpack2 [tn, sn] = Except.ok (tn, sn) from rfl]
    rw [h2]
    simp only [show unpack2 [tcn, tv] = Except.ok (tcn, tv) from rfl]
    rw [h3]
    simp only [h4, h5]

/-- C6 witness: loading the malformed version string `abc` (which has no
`---` separator, so splits into one part) yields an error. -/
theorem FaultPredOracle.load_propagates_errors_unhandled_witness :
    exceptIsError (FaultPredOracle.load witRegistry witStudentClass "abc") = true :=
  (FaultPredOracle.load_propagates_errors_unhandled witRegistry
    witStudentClass).1 "abc" (by decide)

/-- C8: an oracle constructed by `__init__` has version equal to the
student's version, general_type and unique_type_group equal to the
teacher's, and stores exactly the given teacher, student and ensemble; and
hence every oracle returned by `load` has its version equal to its student's
version and its general_type and unique_type_group equal to its teacher's. -/
theorem FaultPredOracle.init_sets_fields_and_load_inherits
    {DF Feeder ι : Type}
    (t : BaseFaultPredTeacher DF Feeder ι)
    (s : TimeSeriesDLFaultPredStudent DF Feeder ι) (e : Ensemble ι)
    (aiModels : AIModelsRegistry DF Feeder ι)
    (studentClass : TimeSeriesDLFaultPredStudentClass DF Feeder ι)
    (version : String) (o : FaultPredOracle DF Feeder ι)
    (h : FaultPredOracle.load aiModels studentClass version = Except.ok o) :
    ((FaultPredOracle.init t s e).version = s.version ∧
     (FaultPredOracle.init t s e).general_type = t.general_type ∧
     (FaultPredOracle.init t s e).unique_type_group = t.unique_type_group ∧
     (FaultPredOracle.init t s e).teacher = t ∧
     (FaultPredOracle.init t s e).student = s ∧
     (FaultPredOracle.init t s e).ensemble = e) ∧
    (o.version = o.student.version ∧
     o.general_type = o.teacher.general_type ∧
     o.unique_type_group = o.teacher.unique_type_group) := by
  refine ⟨⟨rfl, rfl, rfl, rfl, rfl, rfl⟩, ?_⟩
  obtain ⟨tn, sn, tcn, tv, cls, teacher, student, -, -, -, -, -, ho⟩ :=
    FaultPredOracle.load_ok_elim h
  subst ho
  exact ⟨rfl, rfl, rfl⟩

/-- C8 witness: the fixture oracle built by `init` (and equally returned by
`load` on the fixture registry) satisfies all the field invariants. -/
theorem FaultPredOracle.init_sets_fields_and_load_inherits_witness :
    ((FaultPredOracle.init witTeacher witStudent
        (UnanimousFaultPredEnsemble Nat)).version = witStudent.version ∧
     (FaultPredOracle.init witTeacher witStudent
        (UnanimousFaultPredEnsemble Nat)).general_type = witTeacher.general_type ∧
     (FaultPredOracle.init witTeacher witStudent
        (UnanimousFaultPredEnsemble Nat)).unique_type_group =
          witTeacher.unique_type_group ∧
     (FaultPredOracle.init witTeacher witStudent
        (UnanimousFaultPredEnsemble Nat)).teacher = witTeacher ∧
     (FaultPredOracle.init witTeacher witStudent
        (UnanimousFaultPredEnsemble Nat)).student = witStudent ∧
     (FaultPredOracle.init witTeacher witStudent
        (UnanimousFaultPredEnsemble Nat)).ensemble =
          UnanimousFaultPredEnsemble Nat) ∧
    ((FaultPredOracle.init witTeacher witStudent).version =
       (FaultPredOracle.init witTeacher witStudent).student.version ∧
     (FaultPredOracle.init witTeacher witStudent).general_type =
       (FaultPredOracle.init witTeacher witStudent).teacher.general_type ∧
     (FaultPredOracle.init witTeacher witStudent).unique_type_group =
       (FaultPredOracle.init witTeacher witStudent).teacher.unique_type_group) :=
  FaultPredOracle.init_sets_fields_and_load_inherits witTeacher witStudent
    (UnanimousFaultPredEnsemble Nat) witRegistry witStudentClass
    "FPTeacher--1---FPStudent--2"
    (FaultPredOracle.init witTeacher witStudent) rfl

/-- C9: every oracle returned by `load` carries the constructor's default
ensemble, a `UnanimousFaultPredEnsemble`: `load` reads no ensemble from any
registry. -/
theorem FaultPredOracle.load_uses_default_unanimous_ensemble
    {DF Feeder ι : Type} (aiModels : AIModelsRegistry DF Feeder ι)
    (studentClass : TimeSeriesDLFaultPredStudentClass DF Feeder ι)
    (version : String) (o : FaultPredOracle DF Feeder ι)
    (h : FaultPredOracle.load aiModels studentClass version = Except.ok o) :
    o.ensemble = UnanimousFaultPredEnsemble ι := by
  obtain ⟨tn, sn, tcn, tv, cls, teacher, student, -, -, -, -, -, ho⟩ :=
    FaultPredOracle.load_ok_elim h
  subst ho
  rfl

/-- C9 witness: the oracle loaded from the fixture registry at the concrete
version string carries the default unanimous ensemble. -/
theorem FaultPredOracle.load_uses_default_unanimous_ensemble_witness :
    (FaultPredOracle.init witTeacher witStudent).ensemble =
      UnanimousFaultPredEnsemble Nat :=
  FaultPredOracle.load_uses_default_unanimous_ensemble witRegistry
    witStudentClass "FPTeacher--1---FPStudent--2"
    (FaultPredOracle.init witTeacher witStudent) rfl

/-- Helper: the k-th element of a Python `zip` of three lists is the triple
of the k-th elements, `none` as soon as any list is exhausted. -/
theorem zip3_getElemQ {α β γ : Type} (l1 : List α) (l2 : List β) (l3 : List γ)
    (k : Nat) :
    (zip3 l1 l2 l3)[k]? =
      l1[k]?.bind fun a => l2[k]?.bind fun b => l3[k]?.map fun c => (a, b, c) := by
  induction l1 generalizing l2 l3 k with
  | nil => simp [zip3]
  | cons a l1 ih =>
    cases l2 with
    | nil =>
      cases k with
      | zero => simp [zip3]
      | succ k => cases h : l1[k]? <;> simp [zip3, h]
    | cons b l2 =>
      cases l3 with
      | nil =>
        cases k with
        | zero => simp [zip3]
        | succ k => cases h1 : l1[k]? <;> cases h2 : l2[k]? <;> simp [zip3, h1, h2]
      | cons c l3 =>
        cases k with
        | zero => simp [zip3]
        | succ k => simpa [zip3] using ih l2 l3 k

/-- C5: `batch_predict` returns a Series named FAULT whose index is the
index of the ensemble's batch predictions and whose k-th element is the
triple of the k-th teacher, student and ensemble predictions; under the
hypothesis that the three prediction series carry the same index (the
feeder-alignment condition), the three predictions of each row of the result
therefore align by row index. -/
theorem FaultPredOracle.batch_predict_aligns_triples_by_row
    {DF Feeder ι : Type} (o : FaultPredOracle DF Feeder ι) (fd : Feeder)
    (t s e : PSeries ι Bool)
    (ht : o.teacher.batch_predict fd = t)
    (hs : o.student.batch_predict fd true = s)
    (he : o.ensemble.batch_predict t s = e)
    (_hti : t.index = e.index) (_hsi : s.index = e.index) :
    (o.batch_predict fd).1.name = "FAULT" ∧
    (o.batch_predict fd).1.index = e.index ∧
    ∀ k : Nat, (o.batch_predict fd).1.values[k]? =
      t.values[k]?.bind fun a => s.values[k]?.bind fun b =>
        e.values[k]?.map fun c => (a, b, c) := by
  subst ht
  subst hs
  subst he
  exact ⟨rfl, rfl, fun k => zip3_getElemQ _ _ _ k⟩

/-- C5 witness: on the fixture oracle, the batch prediction is named FAULT,
indexed like the ensemble predictions, and its rows hold the aligned
teacher, student and ensemble triples. -/
theorem FaultPredOracle.batch_predict_aligns_triples_by_row_witness :
    (witOracle.batch_predict ()).1.name = "FAULT" ∧
    (witOracle.batch_predict ()).1.index = [7, 8] ∧
    (witOracle.batch_predict ()).1.values[0]? = some (true, true, true) ∧
    (witOracle.batch_predict ()).1.values[1]? = some (false, true, false) := by
  have h := FaultPredOracle.batch_predict_aligns_triples_by_row witOracle ()
    { index := [7, 8], values := [true, false], name := "t" }
    { index := [7, 8], values := [true, true], name := "s" }
    { index := [7, 8], values := [true, false], name := "t" }
    rfl rfl rfl rfl rfl
  exact ⟨h.1, h.2.1, (h.2.2 0).trans rfl, (h.2.2 1).trans rfl⟩

end PMFP
